import Mathlib

/-!
Shallow embedding of `src/WebStreamer/server/stream_routes.py` (TG-FileStreamBot).

Python integers are unbounded, so they are modelled by `Int`/`Nat`.  Python `%`
on a positive modulus is floor-mod, which agrees with Lean's `Int.emod` (`%`),
and Python floor division by a positive divisor agrees with `Int.ediv` (`/`).
`math.ceil(a / b)` in the source uses float division; for the magnitudes a
Telegram file can reach (far below 2^52) the float result ceils to the exact
integer ceiling, modelled here as `(a + b - 1) / b`.
-/

/-- ASCII whitespace stripped by Python `int(str)` (`string.whitespace`). -/
def is_py_space (c : Char) : Bool :=
  c == ' ' || c == '\t' || c == '\n' || c == '\r' || c == '\x0b' || c == '\x0c'

/-- Strip leading and trailing whitespace, as Python `int(str)` does before
parsing.  (Python also strips some unicode spaces; ASCII suffices here.) -/
def py_strip (cs : List Char) : List Char :=
  ((cs.dropWhile is_py_space).reverse.dropWhile is_py_space).reverse

/-- Continuation of a Python base-10 digit run: decimal digits where a single
underscore may stand between two digits (`1_000` parses, `1__0`/`1_` do not).
`acc` is the numeric value accumulated so far. -/
def py_digits_aux (acc : Nat) : List Char → Option Nat
  | [] => some acc
  | '_' :: c :: rest =>
      if c.isDigit then py_digits_aux (10 * acc + (c.toNat - 48)) rest else none
  | ['_'] => none
  | c :: rest =>
      if c.isDigit then py_digits_aux (10 * acc + (c.toNat - 48)) rest else none

/-- A nonempty Python digit run (must start with a digit). -/
def py_unsigned_digits : List Char → Option Nat
  | c :: rest => if c.isDigit then py_digits_aux (c.toNat - 48) rest else none
  | [] => none

/-- Python `int(s)` in base 10: optional surrounding whitespace, an optional
leading `+`/`-` sign, then a digit run with underscore grouping.  `none`
models the `ValueError` that `int()` raises on anything else. -/
def pyInt (s : String) : Option Int :=
  match py_strip s.data with
  | '+' :: rest => (py_unsigned_digits rest).map Int.ofNat
  | '-' :: rest => (py_unsigned_digits rest).map (fun n => -(n : Int))
  | t => (py_unsigned_digits t).map Int.ofNat

/-- Python `range_header.replace("bytes=", "")` (line 146): delete every
occurrence of the pattern, scanning left to right without overlap. -/
def strip_bytes_eq : List Char → List Char
  | 'b' :: 'y' :: 't' :: 'e' :: 's' :: '=' :: rest => strip_bytes_eq rest
  | c :: rest => c :: strip_bytes_eq rest
  | [] => []

/-- Python `s.split("-")` (line 146): split at every `'-'`, keeping empty
parts (`"-500".split("-") == ["", "500"]`). -/
def split_dash : List Char → List (List Char)
  | [] => [[]]
  | '-' :: rest => [] :: split_dash rest
  | c :: rest =>
      match split_dash rest with
      | p :: ps => (c :: p) :: ps
      | [] => [[c]]

/-- The list of strings produced by line 146:
`range_header.replace("bytes=", "").split("-")`. -/
def py_split_parts (s : String) : List String :=
  (split_dash (strip_bytes_eq s.data)).map (fun cs => String.mk cs)

/-- The exceptions that can cross the `media_streamer` / route-handler
boundary.  `InvalidHash` and `FIleNotFound` (source spelling) come from
`WebStreamer.server.exceptions`; the three bare constructors are the
client-side transient errors of lines 46/62/80; `ValueError` is raised by
`int()` / tuple unpacking / `request.http_range`; `OtherExc` stands for any
other `Exception`, carrying `str(e)`. -/
inductive PyExc where
  | InvalidHash (message : String)
  | FIleNotFound (message : String)
  | AttributeError
  | BadStatusLine
  | ConnectionResetError
  | ValueError (message : String)
  | OtherExc (message : String)
deriving DecidableEq

/-- The metadata `media_streamer` reads off the resolved `file_id` (line 142
onward): `file_size`, declared `mime_type`, the result of
`mimetypes.guess_type(utils.get_name(file_id))[0]` (an external table lookup,
supplied as data), and the display name. -/
structure FileProps where
  file_size : Nat
  mime_type : Option String
  guessed_mime : Option String
  name : String
deriving DecidableEq

/-- Python `a or b` for an optional string `a` (falsy when `None` or `""`),
used by line 173's mime-type fallback chain. -/
def py_or (a : Option String) (d : String) : String :=
  match a with
  | some s => if s = "" then d else s
  | none => d

/-- Line 173: `file_id.mime_type or mimetypes.guess_type(...)[0] or
"application/octet-stream"`. -/
def mime_of (file_id : FileProps) : String :=
  py_or file_id.mime_type (py_or file_id.guessed_mime "application/octet-stream")

/-- Line 160: `chunk_size = 1024 * 1024`. -/
def chunk_size : Int := 1024 * 1024

/-- Python `math.ceil(a / b)` for a positive divisor `b` (exact for the
magnitudes reachable here, see the file header). -/
def ceil_div (a b : Int) : Int := (a + b - 1) / b

/-- The four chunk-aligned fetch parameters passed to `yield_file`. -/
structure ChunkPlan where
  offset : Int
  first_part_cut : Int
  last_part_cut : Int
  part_count : Int
deriving DecidableEq

/-- Lines 163-168: the plan computed from the clamped range.
`math.floor(offset / chunk_size)` is floor division by a positive divisor,
i.e. `Int.ediv`. -/
def mk_plan (from_bytes until_bytes : Int) : ChunkPlan :=
  let offset := from_bytes - from_bytes % chunk_size
  { offset := offset
    first_part_cut := from_bytes - offset
    last_part_cut := until_bytes % chunk_size + 1
    part_count := ceil_div until_bytes chunk_size - offset / chunk_size }

/-- The response body: either a concrete text body (416 path, rendered pages)
or the lazy `yield_file` stream, determined by its `ChunkPlan` (the file id,
client index and the constant `chunk_size` are the remaining `yield_file`
arguments, line 169-171). -/
inductive Body where
  | text (s : String)
  | stream (plan : ChunkPlan)
deriving DecidableEq

/-- An `aiohttp.web.Response` restricted to the fields the routes set. -/
structure Response where
  status : Nat
  headers : List (String × String)
  body : Body
deriving DecidableEq

/-- Look a header up by exact key. -/
def header_value (r : Response) (k : String) : Option String :=
  (r.headers.find? (fun p => p.1 == k)).map (fun p => p.2)

/-- Lines 154-158: the 416 response. -/
def range_not_satisfiable (file_size : Nat) : Response :=
  { status := 416
    headers := [("Content-Range", "bytes */" ++ toString file_size)]
    body := .text "416: Range not satisfiable" }

/-- Line 179's `Content-Range` f-string: `f"bytes {from}-{until}/{size}"`. -/
def content_range_value (from_bytes until_bytes : Int) (file_size : Nat) : String :=
  "bytes " ++ toString from_bytes ++ "-" ++ toString until_bytes ++ "/" ++ toString file_size

/-- Lines 177-190: the success-path header dict (insertion order preserved).
`until_bytes` is already clamped and `req_length = until_bytes - from_bytes + 1`. -/
def response_headers (from_bytes until_bytes : Int) (file_id : FileProps) (is_video : Bool) :
    List (String × String) :=
  [("Content-Type", mime_of file_id),
   ("Content-Range", content_range_value from_bytes until_bytes file_id.file_size),
   ("Content-Length", toString (until_bytes - from_bytes + 1)),
   ("Content-Disposition",
     (if is_video then "inline" else "attachment") ++ "; filename=\"" ++ file_id.name ++ "\""),
   ("Accept-Ranges", "bytes"),
   ("Access-Control-Allow-Origin", "*"),
   ("Access-Control-Allow-Methods", "GET, HEAD, OPTIONS")] ++
  (if is_video then [("X-Frame-Options", "ALLOWALL")] else [])

/-- Lines 160-196: clamp, plan and response assembly on the validated range. -/
def ok_response (from_bytes until_bytes : Int) (file_id : FileProps)
    (truthy is_video : Bool) : Response :=
  { status := if truthy then 206 else 200
    headers := response_headers from_bytes until_bytes file_id is_video
    body := .stream (mk_plan from_bytes until_bytes) }

/-- Lines 153-196: validation (note the strict `until_bytes > file_size` on
line 153), then the clamp `until_bytes = min(until_bytes, file_size - 1)` of
line 161 and the assembled streaming response.  `truthy` records whether the
`Range` header was truthy (drives the 206/200 choice on line 193). -/
def serve_range (from_bytes until_bytes : Int) (file_id : FileProps)
    (truthy is_video : Bool) : Response :=
  if until_bytes > (file_id.file_size : Int) ∨ from_bytes < 0 ∨ until_bytes < from_bytes then
    range_not_satisfiable file_id.file_size
  else
    ok_response from_bytes (min until_bytes ((file_id.file_size : Int) - 1)) file_id truthy is_video

/-- Truthiness of line 126's `request.headers.get("Range", 0)`: the absent
header yields the falsy `0`, a present header is falsy exactly when it is the
empty string. -/
def range_truthy : Option String → Bool
  | none => false
  | some s => if s = "" then false else true

/-- Lines 145-151: range parsing.  A truthy header is split on line 146 and
converted with `int()`; an absent header takes the defaults
`request.http_range` provides for it (`start = None → 0`,
`stop = None → file_size`, so `(from, until) = (0, file_size - 1)`).  A
present-but-empty `Range` header is falsy, so line 150 consults
`request.http_range`, and aiohttp raises `ValueError` because `""` does not
match its `bytes=(\d*)-(\d*)` pattern. -/
def parse_range (range_header : Option String) (file_size : Nat) :
    Except PyExc (Int × Int) :=
  match range_header with
  | none => .ok (0, (file_size : Int) - 1)
  | some s =>
    if s = "" then .error (.ValueError "range not in acceptable format")
    else
      match py_split_parts s with
      | [f, u] =>
        match pyInt f with
        | none => .error (.ValueError ("invalid literal for int() with base 10: " ++ f))
        | some from_bytes =>
          if u = "" then .ok (from_bytes, (file_size : Int) - 1)
          else
            match pyInt u with
            | none => .error (.ValueError ("invalid literal for int() with base 10: " ++ u))
            | some until_bytes => .ok (from_bytes, until_bytes)
      | _ => .error (.ValueError "not enough values to unpack")

/-- Lines 125-196: `media_streamer`.  Backend selection and the session cache
(lines 128-140) do not affect the response value and are modelled separately;
`resolved` is the outcome of line 142's `get_file_properties`, which may raise
`InvalidHash` / `FIleNotFound` or a transport error. -/
def media_streamer (resolved : Except PyExc FileProps) (range_header : Option String)
    (is_video : Bool) : Except PyExc Response :=
  match resolved with
  | .error e => .error e
  | .ok file_id =>
    match parse_range range_header file_id.file_size with
    | .error e => .error e
    | .ok (from_bytes, until_bytes) =>
      .ok (serve_range from_bytes until_bytes file_id (range_truthy range_header) is_video)

/-- What a route handler ultimately produces: a normal response, an HTTP
error response, or nothing at all (the `pass` arms return `None`, so no
response body is ever attempted for the client). -/
inductive HttpOutcome where
  | ok (resp : Response)
  | forbidden (text : String)
  | notFound (text : String)
  | dropped
  | internalServerError (text : String)
deriving DecidableEq

/-- The `try/except` ladder shared verbatim by the `/watch`, `/dl` and
`/video` handlers (lines 39-51, 55-67, 73-85): `InvalidHash` →
`HTTPForbidden(text=e.message)`, `FIleNotFound` → `HTTPNotFound`, the three
transient client-side errors → `pass`, anything else → log and
`HTTPInternalServerError(text=str(e))`.  The exception classes are pairwise
unrelated, so clause order does not matter. -/
def handle_exceptions (r : Except PyExc Response) : HttpOutcome :=
  match r with
  | .ok resp => .ok resp
  | .error (.InvalidHash m) => .forbidden m
  | .error (.FIleNotFound m) => .notFound m
  | .error .AttributeError => .dropped
  | .error .BadStatusLine => .dropped
  | .error .ConnectionResetError => .dropped
  | .error (.ValueError m) => .internalServerError m
  | .error (.OtherExc m) => .internalServerError m

/-- Lines 53-67: the `/dl/{path}` handler. -/
def download_handler (resolved : Except PyExc FileProps) (range_header : Option String) :
    HttpOutcome :=
  handle_exceptions (media_streamer resolved range_header false)

/-- Lines 71-85: the `/video/{path}` handler. -/
def video_stream_handler (resolved : Except PyExc FileProps) (range_header : Option String) :
    HttpOutcome :=
  handle_exceptions (media_streamer resolved range_header true)

/-- Lines 37-51: the `/watch/{path}` handler; `rendered` is the outcome of
`render_page(path)`, wrapped in a 200 `text/html` response on success. -/
def stream_handler (rendered : Except PyExc String) : HttpOutcome :=
  handle_exceptions
    (match rendered with
     | .error e => .error e
     | .ok html => .ok { status := 200, headers := [("Content-Type", "text/html")], body := .text html })

/-- The HTTP status an outcome carries (`none` when the connection is dropped
without a response). -/
def outcomeStatus : HttpOutcome → Option Nat
  | .ok r => some r.status
  | .forbidden _ => some 403
  | .notFound _ => some 404
  | .dropped => none
  | .internalServerError _ => some 500

/-- Line 128: `min(work_loads, key=work_loads.get)`.  `work_loads` is a dict
iterated in insertion order, modelled as an association list of
(client index, load); Python `min` keeps the current best and replaces it only
on a strictly smaller key value, so the first minimum wins. -/
def py_min_aux (best : Nat × Nat) : List (Nat × Nat) → Nat × Nat
  | [] => best
  | p :: rest => py_min_aux (if p.2 < best.2 then p else best) rest

/-- Line 128's selected client index (`none` on an empty table, where Python
`min` raises). -/
def py_min : List (Nat × Nat) → Option Nat
  | [] => none
  | p :: rest => some (py_min_aux p rest).1

/-- The `ChunkPlan` exactly as the spec's Range Planner (§4.4 step 4) states
it, for comparison with `mk_plan`: the only difference is `part_count`, where
the spec prescribes `ceil((until+1)/chunk_size) - floor(offset/chunk_size)`. -/
def spec_plan (from_bytes until_bytes : Int) : ChunkPlan :=
  let offset := from_bytes - from_bytes % chunk_size
  { offset := offset
    first_part_cut := from_bytes - offset
    last_part_cut := until_bytes % chunk_size + 1
    part_count := ceil_div (until_bytes + 1) chunk_size - offset / chunk_size }

/-- Modelled from the spec: `yield_file` (the Chunk Sequencer, §4.5) is not
under `src/`; the spec states the trimmed concatenation of `part_count`
chunks starting at `offset` has its first chunk shortened by `first_part_cut`
leading bytes and its last chunk truncated to `last_part_cut` bytes, for a
total of `(part_count - 1) * chunk_size + last_part_cut - first_part_cut`
bytes. -/
def trimmed_length (p : ChunkPlan) : Int :=
  (p.part_count - 1) * chunk_size + p.last_part_cut - p.first_part_cut

/-- Helper: on every validated range the code's plan is chunk-aligned: the
offset is a multiple of `chunk_size` lying at most `chunk_size - 1` below
`from`, the first cut is in `[0, chunk_size)`, the last cut in
`[1, chunk_size]`, and `part_count` is nonnegative. -/
theorem mk_plan_field_bounds (f u : Int) (hfu : f ≤ u) :
    (mk_plan f u).offset % chunk_size = 0 ∧
    (mk_plan f u).offset ≤ f ∧ f < (mk_plan f u).offset + chunk_size ∧
    0 ≤ (mk_plan f u).first_part_cut ∧ (mk_plan f u).first_part_cut < chunk_size ∧
    1 ≤ (mk_plan f u).last_part_cut ∧ (mk_plan f u).last_part_cut ≤ chunk_size ∧
    0 ≤ (mk_plan f u).part_count := by
  simp only [mk_plan, chunk_size, ceil_div]
  omega

/-- Helper: the spec's `part_count` formula makes the trimmed concatenation
exactly `until - from + 1` bytes long, on every range. -/
theorem trimmed_length_spec_plan (f u : Int) :
    trimmed_length (spec_plan f u) = u - f + 1 := by
  simp only [spec_plan, trimmed_length, chunk_size, ceil_div]
  omega

/-- Helper: with the code's `part_count` the trimmed concatenation is one
whole chunk short exactly when `until` is a multiple of `chunk_size`. -/
theorem trimmed_length_mk_plan (f u : Int) :
    trimmed_length (mk_plan f u) =
      if u % chunk_size = 0 then u - f + 1 - chunk_size else u - f + 1 := by
  simp only [mk_plan, trimmed_length, chunk_size, ceil_div]
  split <;> omega

/-- C2 (code_bug): `offset`, `first_cut` and `last_cut` match the spec's
formulas for every input, but `part_count` does not: the code computes
`ceil(until/chunk_size) - floor(offset/chunk_size)` (line 168) instead of the
spec's `ceil((until+1)/chunk_size) - floor(offset/chunk_size)`.  At the
validated range `from = until = 0` (request `bytes=0-0` on a 1-byte file) the
code's plan has `part_count = 0` while the spec formula gives 1, yet the same
response advertises `Content-Length: 1`. -/
theorem c2_part_count_deviates_from_spec :
    (∀ f u : Int,
      (mk_plan f u).offset = (spec_plan f u).offset ∧
      (mk_plan f u).first_part_cut = (spec_plan f u).first_part_cut ∧
      (mk_plan f u).last_part_cut = (spec_plan f u).last_part_cut) ∧
    (mk_plan 0 0).part_count = 0 ∧ (spec_plan 0 0).part_count = 1 ∧
    outcomeStatus (download_handler (.ok ⟨1, none, none, "f.bin"⟩) (some "bytes=0-0")) = some 206 ∧
    (serve_range 0 0 ⟨1, none, none, "f.bin"⟩ true false).body = .stream (mk_plan 0 0) ∧
    header_value (serve_range 0 0 ⟨1, none, none, "f.bin"⟩ true false) "Content-Length" = some "1" :=
  ⟨fun _ _ => ⟨rfl, rfl, rfl⟩, by decide, by decide, by decide, by decide, by decide⟩

/-- C3 (code_bug): at `from = 500000`, `until = 1048576` (a chunk boundary)
the byte length determined by the code's plan,
`(part_count - 1) * chunk_size + last_cut - first_cut`, is `-499999` instead
of the promised `until - from + 1 = 548577`; the spec's plan delivers exactly
548577. -/
theorem c3_sequencer_length_defect :
    trimmed_length (mk_plan 500000 1048576) = -499999 ∧
    (1048576 : Int) - 500000 + 1 = 548577 ∧
    trimmed_length (spec_plan 500000 1048576) = 548577 := by decide

/-- C4 (corrected): for `size = 10000000`, request `bytes=500000-1500000`,
the code computes `offset = 0`, `first_cut = 500000`, `part_count = 2` and
`Content-Length: 1000001` as the claim says, but
`last_cut = 1500000 % 1048576 + 1 = 451425`, not the claimed 451665. -/
theorem c4_example_amended :
    mk_plan 500000 1500000 =
      { offset := 0, first_part_cut := 500000, last_part_cut := 451425, part_count := 2 } ∧
    (serve_range 500000 1500000 ⟨10000000, none, none, "f.bin"⟩ true false).body =
      .stream { offset := 0, first_part_cut := 500000, last_part_cut := 451425, part_count := 2 } ∧
    header_value (serve_range 500000 1500000 ⟨10000000, none, none, "f.bin"⟩ true false)
      "Content-Length" = some "1000001" ∧
    outcomeStatus (download_handler (.ok ⟨10000000, none, none, "f.bin"⟩)
      (some "bytes=500000-1500000")) = some 206 := by decide

/-- C4 counterexample: the claim's `last_cut = 451665` is false; the code
computes 451425 on that exact input. -/
theorem c4_last_cut_counterexample :
    (mk_plan 500000 1500000).last_part_cut = 451425 ∧
    (mk_plan 500000 1500000).last_part_cut ≠ 451665 := by decide

/-- C5 (code_bug): at the validated range `from = until = 1048576` (inside a
larger file) the computed plan satisfies all alignment bounds but has
`part_count = 0`, refuting the claim that `part_count` is always positive. -/
theorem c5_part_count_not_positive :
    (mk_plan 1048576 1048576).offset = 1048576 ∧
    (mk_plan 1048576 1048576).offset % chunk_size = 0 ∧
    (mk_plan 1048576 1048576).first_part_cut = 0 ∧
    (mk_plan 1048576 1048576).last_part_cut = 1 ∧
    (mk_plan 1048576 1048576).part_count = 0 ∧
    ¬ 0 < (mk_plan 1048576 1048576).part_count := by decide

/-- C1 (corrected): `media_streamer` returns the 416 response iff
`until > size` (strictly, line 153) or `from < 0` or `until < from`; that
response has status 416, the single header `Content-Range: bytes */<size>`,
and the non-empty body `"416: Range not satisfiable"`. -/
theorem c1_validation_amended (from_bytes until_bytes : Int) (file_id : FileProps)
    (truthy is_video : Bool) :
    ((serve_range from_bytes until_bytes file_id truthy is_video).status = 416 ↔
      (until_bytes > (file_id.file_size : Int) ∨ from_bytes < 0 ∨ until_bytes < from_bytes)) ∧
    ((until_bytes > (file_id.file_size : Int) ∨ from_bytes < 0 ∨ until_bytes < from_bytes) →
      serve_range from_bytes until_bytes file_id truthy is_video =
        { status := 416
          headers := [("Content-Range", "bytes */" ++ toString file_id.file_size)]
          body := .text "416: Range not satisfiable" }) := by
  constructor
  · by_cases h : until_bytes > (file_id.file_size : Int) ∨ from_bytes < 0 ∨ until_bytes < from_bytes
    · simp [serve_range, h, range_not_satisfiable]
    · simp only [serve_range, if_neg h, ok_response]
      constructor
      · intro hs
        cases truthy <;> simp_all
      · intro hc
        exact absurd hc h
  · intro h
    simp [serve_range, h, range_not_satisfiable]

/-- C1 witness: at `from = 5`, `until = 2`, `size = 100` the amended theorem
yields the concrete 416 response. -/
theorem c1_validation_amended_witness :
    serve_range 5 2 ⟨100, none, none, "f.bin"⟩ true false =
      { status := 416
        headers := [("Content-Range", "bytes */" ++ toString (100 : Nat))]
        body := .text "416: Range not satisfiable" } :=
  (c1_validation_amended 5 2 ⟨100, none, none, "f.bin"⟩ true false).2 (by decide)

/-- C1 counterexample: the claim as stated is false on the code.  With
`size = 100` and request `bytes=0-100` we have `until ≥ size`, yet the code
serves a 206 (it only rejects `until > size`); and a genuine 416 response
carries the non-empty body `"416: Range not satisfiable"`, not an empty one. -/
theorem c1_claim_counterexample :
    (100 : Int) ≥ (100 : Int) ∧
    outcomeStatus (download_handler (.ok ⟨100, none, none, "f.bin"⟩) (some "bytes=0-100")) =
      some 206 ∧
    (serve_range 5 2 ⟨100, none, none, "f.bin"⟩ true false).status = 416 ∧
    (serve_range 5 2 ⟨100, none, none, "f.bin"⟩ true false).body ≠ .text "" := by decide

/-- Helper: `toString` on `Int` agrees with `toString` on `Nat` for casts. -/
theorem toString_intCast_nat (n : Nat) : toString ((n : Nat) : Int) = toString n := rfl

/-- Helper: a `serve_range` response that is not the 416 one carries the
line-193 status `206 if range_header else 200`. -/
theorem serve_range_status (f u : Int) (file_id : FileProps) (t v : Bool)
    (h : (serve_range f u file_id t v).status ≠ 416) :
    (serve_range f u file_id t v).status = if t then 206 else 200 := by
  by_cases hc : u > (file_id.file_size : Int) ∨ f < 0 ∨ u < f
  · exact absurd (by simp [serve_range, hc, range_not_satisfiable]) h
  · simp [serve_range, hc, ok_response]

/-- C6 (confirmed): every successful (non-416) `media_streamer` response has
status 206 exactly when a `Range` header was present, 200 otherwise; with no
`Range` header the served range is `from = 0`, `until = size - 1`, with the
full-object `Content-Range: bytes 0-<size-1>/<size>` and
`Content-Length = size`.  (A present-but-empty header never produces a
successful response: it is falsy and `request.http_range` raises on it.) -/
theorem c6_status_and_full_object (range_header : Option String) (file_id : FileProps)
    (is_video : Bool) (resp : Response)
    (hok : media_streamer (.ok file_id) range_header is_video = .ok resp)
    (h416 : resp.status ≠ 416) :
    (resp.status = 206 ↔ range_header.isSome) ∧
    (range_header = none →
      resp.status = 200 ∧
      resp.body = .stream (mk_plan 0 ((file_id.file_size : Int) - 1)) ∧
      ("Content-Range", content_range_value 0 ((file_id.file_size : Int) - 1) file_id.file_size)
        ∈ resp.headers ∧
      ("Content-Length", toString file_id.file_size) ∈ resp.headers) := by
  cases range_header with
  | none =>
    have hr : serve_range 0 ((file_id.file_size : Int) - 1) file_id false is_video = resp := by
      simpa [media_streamer, parse_range, range_truthy] using hok
    subst hr
    by_cases hz : file_id.file_size = 0
    · exfalso
      apply h416
      have hcond : ((file_id.file_size : Int) - 1) > (file_id.file_size : Int) ∨ (0 : Int) < 0 ∨
          ((file_id.file_size : Int) - 1) < 0 := by omega
      simp only [serve_range]
      rw [if_pos hcond]
      rfl
    · have hcond : ¬(((file_id.file_size : Int) - 1) > (file_id.file_size : Int) ∨ (0 : Int) < 0 ∨
          ((file_id.file_size : Int) - 1) < 0) := by omega
      have hserve : serve_range 0 ((file_id.file_size : Int) - 1) file_id false is_video =
          ok_response 0 ((file_id.file_size : Int) - 1) file_id false is_video := by
        simp only [serve_range]
        rw [if_neg hcond, min_self]
      rw [hserve]
      constructor
      · simp [ok_response]
      · intro _
        refine ⟨by simp [ok_response], by simp [ok_response], ?_, ?_⟩
        · simp [ok_response, response_headers]
        · simp [ok_response, response_headers, toString_intCast_nat]
  | some s =>
    cases hp : parse_range (some s) file_id.file_size with
    | error e => simp [media_streamer, hp] at hok
    | ok fu =>
      obtain ⟨fb, ub⟩ := fu
      have hs : s ≠ "" := by
        intro h
        subst h
        simp [parse_range] at hp
      have hr : serve_range fb ub file_id (range_truthy (some s)) is_video = resp := by
        simpa [media_streamer, hp] using hok
      have ht : range_truthy (some s) = true := by simp [range_truthy, hs]
      rw [ht] at hr
      subst hr
      refine ⟨?_, by simp⟩
      have h206 := serve_range_status fb ub file_id true is_video h416
      simp at h206
      simp [h206]

/-- C6 witness: a 5-byte file requested with no `Range` header gives the 200
full-object response with `Content-Range: bytes 0-4/5` and
`Content-Length: 5`. -/
theorem c6_status_and_full_object_witness :
    (((serve_range 0 ((5 : Int) - 1) ⟨5, none, none, "f.bin"⟩ false false).status = 206 ↔
        (none : Option String).isSome) ∧
      ((none : Option String) = none →
        (serve_range 0 ((5 : Int) - 1) ⟨5, none, none, "f.bin"⟩ false false).status = 200 ∧
        (serve_range 0 ((5 : Int) - 1) ⟨5, none, none, "f.bin"⟩ false false).body =
          .stream (mk_plan 0 ((5 : Int) - 1)) ∧
        ("Content-Range", content_range_value 0 ((5 : Int) - 1) 5) ∈
          (serve_range 0 ((5 : Int) - 1) ⟨5, none, none, "f.bin"⟩ false false).headers ∧
        ("Content-Length", toString (5 : Nat)) ∈
          (serve_range 0 ((5 : Int) - 1) ⟨5, none, none, "f.bin"⟩ false false).headers)) :=
  c6_status_and_full_object none ⟨5, none, none, "f.bin"⟩ false
    (serve_range 0 ((5 : Int) - 1) ⟨5, none, none, "f.bin"⟩ false false) rfl (by decide)

/-- C7 (confirmed): the `/watch`, `/dl` and `/video` handlers map the
underlying failure identically: `InvalidHash` → 403 carrying `e.message`,
`FIleNotFound` → 404 carrying `e.message`, the transient client-side errors
(`AttributeError`, `BadStatusLine`, `ConnectionResetError`) → the connection
is dropped with no response at all, and any other exception (including
`ValueError`) → 500 whose body carries only the brief `str(e)` diagnostic. -/
theorem c7_error_mapping (m : String) (range_header : Option String) :
    download_handler (.error (.InvalidHash m)) range_header = .forbidden m ∧
    video_stream_handler (.error (.InvalidHash m)) range_header = .forbidden m ∧
    stream_handler (.error (.InvalidHash m)) = .forbidden m ∧
    outcomeStatus (HttpOutcome.forbidden m) = some 403 ∧
    download_handler (.error (.FIleNotFound m)) range_header = .notFound m ∧
    video_stream_handler (.error (.FIleNotFound m)) range_header = .notFound m ∧
    stream_handler (.error (.FIleNotFound m)) = .notFound m ∧
    outcomeStatus (HttpOutcome.notFound m) = some 404 ∧
    download_handler (.error .AttributeError) range_header = .dropped ∧
    download_handler (.error .BadStatusLine) range_header = .dropped ∧
    download_handler (.error .ConnectionResetError) range_header = .dropped ∧
    video_stream_handler (.error .AttributeError) range_header = .dropped ∧
    video_stream_handler (.error .BadStatusLine) range_header = .dropped ∧
    video_stream_handler (.error .ConnectionResetError) range_header = .dropped ∧
    stream_handler (.error .AttributeError) = .dropped ∧
    stream_handler (.error .BadStatusLine) = .dropped ∧
    stream_handler (.error .ConnectionResetError) = .dropped ∧
    outcomeStatus HttpOutcome.dropped = none ∧
    download_handler (.error (.OtherExc m)) range_header = .internalServerError m ∧
    video_stream_handler (.error (.OtherExc m)) range_header = .internalServerError m ∧
    stream_handler (.error (.OtherExc m)) = .internalServerError m ∧
    download_handler (.error (.ValueError m)) range_header = .internalServerError m ∧
    outcomeStatus (HttpOutcome.internalServerError m) = some 500 :=
  ⟨rfl, rfl, rfl, rfl, rfl, rfl, rfl, rfl, rfl, rfl, rfl, rfl, rfl, rfl, rfl, rfl, rfl, rfl,
   rfl, rfl, rfl, rfl, rfl⟩

/-- C10 (corrected): when the `Range` header is present and truthy but its
`<from>` part (after line 146's replace/split) is rejected by Python
`int()`, `media_streamer` raises `ValueError` before any validation, and the
`/dl` and `/video` handlers surface it as HTTP 500 — never 416 or 400. -/
theorem c10_parse_error_is_500 (file_id : FileProps) (s f u : String)
    (hs : s ≠ "") (hp : py_split_parts s = [f, u]) (hf : pyInt f = none) :
    outcomeStatus (download_handler (.ok file_id) (some s)) = some 500 ∧
    outcomeStatus (video_stream_handler (.ok file_id) (some s)) = some 500 := by
  constructor <;>
    simp [download_handler, video_stream_handler, media_streamer, parse_range, hs, hp, hf,
      handle_exceptions, outcomeStatus]

/-- C10 witness: the RFC suffix form `bytes=-500` splits into
`["", "500"]`, `int("")` raises, and both range routes answer 500. -/
theorem c10_parse_error_is_500_witness :
    outcomeStatus (download_handler (.ok ⟨1, none, none, "f.bin"⟩) (some "bytes=-500")) =
      some 500 ∧
    outcomeStatus (video_stream_handler (.ok ⟨1, none, none, "f.bin"⟩) (some "bytes=-500")) =
      some 500 :=
  c10_parse_error_is_500 ⟨1, none, none, "f.bin"⟩ "bytes=-500" "" "500"
    (by decide) (by decide) (by decide)

/-- C10 counterexample: the claim as stated is false, because Python `int()`
accepts more than plain non-negative integer literals.  The header
`bytes=+0-0` has the non-literal from-part `"+0"`, yet `int("+0")` succeeds
and the request is served with 206, not 500. -/
theorem c10_plain_literal_counterexample :
    (∃ c ∈ "+0".data, ¬c.isDigit) ∧
    pyInt "+0" = some 0 ∧
    outcomeStatus (download_handler (.ok ⟨1, none, none, "f.bin"⟩) (some "bytes=+0-0")) =
      some 206 := by decide

/-- Helper: `find?` returns `x` when every element of the prefix fails the
predicate and `x` satisfies it. -/
theorem find?_append_cons {α : Type} (p : α → Bool) (l1 : List α) (x : α) (l2 : List α)
    (h1 : ∀ y ∈ l1, p y = false) (hx : p x = true) :
    (l1 ++ x :: l2).find? p = some x := by
  induction l1 with
  | nil => simpa using List.find?_cons_of_pos l2 hx
  | cons y ys ih =>
    have hy : ¬ p y = true := by simp [h1 y (by simp)]
    rw [List.cons_append, List.find?_cons_of_neg _ hy]
    exact ih (fun z hz => h1 z (by simp [hz]))

/-- Helper: Python `min`'s left fold either keeps `best` (when no element is
strictly smaller) or returns the first element strictly below `best`, which
is then a lower bound of the whole list and strictly below everything before
it. -/
theorem py_min_aux_spec (l : List (Nat × Nat)) :
    ∀ best : Nat × Nat,
      (py_min_aux best l = best ∧ ∀ q ∈ l, best.2 ≤ q.2) ∨
      (∃ l1 x l2, l = l1 ++ x :: l2 ∧ py_min_aux best l = x ∧ x.2 < best.2 ∧
        (∀ q ∈ l, x.2 ≤ q.2) ∧ (∀ y ∈ l1, x.2 < y.2)) := by
  induction l with
  | nil => exact fun best => Or.inl ⟨rfl, by simp⟩
  | cons p rest ih =>
    intro best
    by_cases hp : p.2 < best.2
    · have hstep : py_min_aux best (p :: rest) = py_min_aux p rest := by
        simp [py_min_aux, hp]
      rcases ih p with ⟨heq, hall⟩ | ⟨l1, x, l2, hdec, heq, hlt, hmin, hbefore⟩
      · refine Or.inr ⟨[], p, rest, by simp, by rw [hstep, heq], hp, ?_, by simp⟩
        intro q hq
        rcases List.mem_cons.mp hq with h | h
        · subst h; exact le_refl _
        · exact hall q h
      · refine Or.inr ⟨p :: l1, x, l2, by rw [hdec]; rfl, by rw [hstep, heq],
          lt_trans hlt hp, ?_, ?_⟩
        · intro q hq
          rcases List.mem_cons.mp hq with h | h
          · subst h; exact le_of_lt hlt
          · exact hmin q h
        · intro y hy
          rcases List.mem_cons.mp hy with h | h
          · subst h; exact hlt
          · exact hbefore y h
    · have hstep : py_min_aux best (p :: rest) = py_min_aux best rest := by
        simp [py_min_aux, hp]
      have hbp : best.2 ≤ p.2 := le_of_not_lt hp
      rcases ih best with ⟨heq, hall⟩ | ⟨l1, x, l2, hdec, heq, hlt, hmin, hbefore⟩
      · refine Or.inl ⟨by rw [hstep, heq], ?_⟩
        intro q hq
        rcases List.mem_cons.mp hq with h | h
        · subst h; exact hbp
        · exact hall q h
      · refine Or.inr ⟨p :: l1, x, l2, by rw [hdec]; rfl, by rw [hstep, heq], hlt, ?_, ?_⟩
        · intro q hq
          rcases List.mem_cons.mp hq with h | h
          · subst h; exact le_of_lt (lt_of_lt_of_le hlt hbp)
          · exact hmin q h
        · intro y hy
          rcases List.mem_cons.mp hy with h | h
          · subst h; exact lt_of_lt_of_le hlt hbp
          · exact hbefore y h

/-- C8 (confirmed): line 128's `min(work_loads, key=work_loads.get)` selects
the first key in pool iteration order whose load is the minimum of the
table: it equals `find?` of the first entry whose load is a lower bound of
every load, so ties are broken deterministically by the first encountered
minimum. -/
theorem c8_least_loaded_selection (work_loads : List (Nat × Nat)) (h : work_loads ≠ []) :
    py_min work_loads =
      (work_loads.find? (fun q => decide (∀ r ∈ work_loads, q.2 ≤ r.2))).map Prod.fst := by
  cases work_loads with
  | nil => exact absurd rfl h
  | cons p rest =>
    rcases py_min_aux_spec rest p with ⟨heq, hall⟩ | ⟨l1, x, l2, hdec, heq, hlt, hmin, hbefore⟩
    · have hp : (fun q => decide (∀ r ∈ p :: rest, q.2 ≤ r.2)) p = true := by
        simp only [decide_eq_true_eq]
        intro r hr
        rcases List.mem_cons.mp hr with hh | hh
        · subst hh; exact le_refl _
        · exact hall r hh
      have hfind : (p :: rest).find? (fun q => decide (∀ r ∈ p :: rest, q.2 ≤ r.2)) = some p := by
        have := find?_append_cons (fun q => decide (∀ r ∈ p :: rest, q.2 ≤ r.2))
          [] p rest (by simp) hp
        simpa using this
      rw [show py_min (p :: rest) = some (py_min_aux p rest).1 from rfl, heq, hfind]
      rfl
    · have hx : (fun q => decide (∀ r ∈ p :: rest, q.2 ≤ r.2)) x = true := by
        simp only [decide_eq_true_eq]
        intro r hr
        rcases List.mem_cons.mp hr with hh | hh
        · subst hh; exact le_of_lt hlt
        · exact hmin r hh
      have hpre : ∀ y ∈ p :: l1, (fun q => decide (∀ r ∈ p :: rest, q.2 ≤ r.2)) y = false := by
        intro y hy
        have hxmem : x ∈ rest := by
          rw [hdec]; exact List.mem_append_right _ (List.mem_cons_self _ _)
        simp only [decide_eq_false_iff_not]
        intro hy2
        have hyx := hy2 x (List.mem_cons_of_mem _ hxmem)
        rcases List.mem_cons.mp hy with hh | hh
        · subst hh; omega
        · have := hbefore y hh; omega
      have hsplit : p :: rest = (p :: l1) ++ x :: l2 := by rw [hdec]; rfl
      rw [show py_min (p :: rest) = some (py_min_aux p rest).1 from rfl, heq]
      rw [hsplit] at hx hpre ⊢
      have hfind := find?_append_cons _ (p :: l1) x l2 hpre hx
      rw [hfind]
      rfl

/-- C8 witness: on the table `[(0, 5), (1, 3), (2, 3)]` (clients 1 and 2 tie
at load 3) the selection picks client 1, the first minimum in iteration
order. -/
theorem c8_least_loaded_selection_witness :
    py_min [(0, 5), (1, 3), (2, 3)] =
      (([(0, 5), (1, 3), (2, 3)] : List (Nat × Nat)).find?
        (fun q => decide (∀ r ∈ ([(0, 5), (1, 3), (2, 3)] : List (Nat × Nat)), q.2 ≤ r.2))).map
        Prod.fst ∧
    py_min [(0, 5), (1, 3), (2, 3)] = some 1 :=
  ⟨c8_least_loaded_selection _ (by decide), by decide⟩

/-- Line 69's `class_cache` plus the bookkeeping needed to talk about object
identity: sessions are numbered by the construction counter `next_id` (so
"identical instance" is equality of numbers), and `built` logs, in order,
which client each `ByteStreamer(...)` construction was for. -/
structure CacheState where
  cache : List (Nat × Nat)
  next_id : Nat
  built : List Nat
deriving DecidableEq

/-- Python `dict` membership / subscript over the association list (newest
binding first). -/
def cache_lookup : List (Nat × Nat) → Nat → Option Nat
  | [], _ => none
  | p :: rest, c => if p.1 = c then some p.2 else cache_lookup rest c

/-- Lines 134-140 as one atomic step of one request task: test
`faster_client in class_cache`, construct `ByteStreamer` and store it when
absent.  The block contains no `await`, so under asyncio's cooperative
scheduling no other request can interleave inside it; a task's first
suspension point is line 142.  Returns the new state and the session this
request received. -/
def cache_step (s : CacheState) (client : Nat) : CacheState × Nat :=
  match cache_lookup s.cache client with
  | some sess => (s, sess)
  | none =>
    ({ cache := (client, s.next_id) :: s.cache, next_id := s.next_id + 1,
       built := s.built ++ [client] }, s.next_id)

/-- An arbitrary interleaving of concurrently running requests: the schedule
lists, in execution order, the client each request's cache block runs for.
Returns the final state and the session each request received. -/
def run_schedule (s : CacheState) : List Nat → CacheState × List Nat
  | [] => (s, [])
  | c :: rest =>
    let st := cache_step s c
    let nx := run_schedule st.1 rest
    (nx.1, st.2 :: nx.2)

/-- Line 69: the process starts with an empty `class_cache`. -/
def init_state : CacheState := { cache := [], next_id := 0, built := [] }

/-- Helper: a cached binding survives any later cache block. -/
theorem cache_lookup_step (s : CacheState) (c x v : Nat)
    (h : cache_lookup s.cache x = some v) :
    cache_lookup (cache_step s c).1.cache x = some v := by
  cases hc : cache_lookup s.cache c with
  | some sess => simp only [cache_step, hc]; exact h
  | none =>
    simp only [cache_step, hc]
    by_cases hxc : c = x
    · subst hxc; simp [h] at hc
    · simp only [cache_lookup, if_neg hxc]
      exact h

/-- Helper: a cached binding survives a whole schedule. -/
theorem cache_lookup_run (sched : List Nat) :
    ∀ (s : CacheState) (x v : Nat), cache_lookup s.cache x = some v →
      cache_lookup (run_schedule s sched).1.cache x = some v := by
  induction sched with
  | nil => intro s x v h; simpa [run_schedule] using h
  | cons c rest ih =>
    intro s x v h
    simp only [run_schedule]
    exact ih _ x v (cache_lookup_step s c x v h)

/-- Helper: after its cache block, a request's client maps to exactly the
session the request received. -/
theorem cache_step_self (s : CacheState) (c : Nat) :
    cache_lookup (cache_step s c).1.cache c = some (cache_step s c).2 := by
  cases hc : cache_lookup s.cache c with
  | some sess => simp only [cache_step, hc]
  | none => simp [cache_step, hc, cache_lookup]

/-- Helper: every request receives the session its client is cached under at
the end of the schedule. -/
theorem run_schedule_sessions (sched : List Nat) :
    ∀ s : CacheState, ∀ p ∈ sched.zip (run_schedule s sched).2,
      cache_lookup (run_schedule s sched).1.cache p.1 = some p.2 := by
  induction sched with
  | nil => intro s p hp; simp [run_schedule] at hp
  | cons c rest ih =>
    intro s p hp
    simp only [run_schedule, List.zip_cons_cons] at hp
    rcases List.mem_cons.mp hp with h | h
    · subst h
      simp only [run_schedule]
      exact cache_lookup_run rest _ c _ (cache_step_self s c)
    · simp only [run_schedule]
      exact ih _ p h

/-- The construct-once invariant: every client has been constructed for at
most once, and exactly the cached clients have been constructed for. -/
def built_once (s : CacheState) : Prop :=
  ∀ c : Nat, s.built.count c ≤ 1 ∧ (c ∈ s.built ↔ (cache_lookup s.cache c).isSome)

/-- Helper: the invariant holds initially. -/
theorem built_once_init : built_once init_state := by
  intro c
  simp [init_state, cache_lookup]

/-- Helper: each cache block preserves the invariant. -/
theorem built_once_step (s : CacheState) (c : Nat) (h : built_once s) :
    built_once (cache_step s c).1 := by
  intro x
  cases hc : cache_lookup s.cache c with
  | some sess => simpa only [cache_step, hc] using h x
  | none =>
    simp only [cache_step, hc]
    obtain ⟨hcount, hmem⟩ := h x
    by_cases hxc : x = c
    · subst hxc
      have hnotmem : x ∉ s.built := by
        rw [hmem]
        simp [hc]
      constructor
      · rw [List.count_append]
        rw [List.count_eq_zero.mpr hnotmem]
        simp
      · simp [cache_lookup]
    · have hcx : ¬ c = x := fun hh => hxc hh.symm
      constructor
      · rw [List.count_append]
        have : List.count x [c] = 0 := by
          rw [List.count_eq_zero]
          simp [hxc]
        omega
      · rw [List.mem_append]
        simp only [List.mem_singleton, hxc, or_false]
        rw [hmem]
        simp only [cache_lookup, if_neg hcx]

/-- Helper: the invariant is preserved by a whole schedule. -/
theorem built_once_run (sched : List Nat) :
    ∀ s : CacheState, built_once s → built_once (run_schedule s sched).1 := by
  induction sched with
  | nil => intro s h; simpa [run_schedule] using h
  | cons c rest ih =>
    intro s h
    simp only [run_schedule]
    exact ih _ (built_once_step s c h)

/-- C9 (confirmed): over every interleaving of concurrent requests — each
request's lines 134-140 execute as one atomic block because they contain no
`await` — the `ByteStreamer` session for any given client is constructed at
most once for the process lifetime, and every request that looked up a
client received exactly the session cached for that client, hence all
requests for the same client (including N racing first lookups) share the
identical instance. -/
theorem c9_cache_constructs_once (sched : List Nat) (c : Nat) :
    (run_schedule init_state sched).1.built.count c ≤ 1 ∧
    ∀ p ∈ sched.zip (run_schedule init_state sched).2,
      cache_lookup (run_schedule init_state sched).1.cache p.1 = some p.2 :=
  ⟨(built_once_run sched init_state built_once_init c).1,
   run_schedule_sessions sched init_state⟩

/-- C9 witness: three concurrent first lookups for client 7 construct once
(the log counts one construction) and the first request's session (id 0) is
what client 7 stays cached under. -/
theorem c9_cache_constructs_once_witness :
    (run_schedule init_state [7, 7, 7]).1.built.count 7 ≤ 1 ∧
    cache_lookup (run_schedule init_state [7, 7, 7]).1.cache 7 = some 0 :=
  ⟨(c9_cache_constructs_once [7, 7, 7] 7).1,
   (c9_cache_constructs_once [7, 7, 7] 7).2 (7, 0) (by decide)⟩
